import Mathlib

/-!
Verification of the YAML event adapter (`go-yaml-patch/events.go`) and the
stream driver (`main.go`) of the go-yaml-event repository.

The underlying parsing engine (`yaml_parser_t`, `yaml_parser_parse`,
`yaml_event_delete`, the style constants) is not part of the repository's
sources; per the spec it is an opaque external collaborator.  It is modelled
here as a trace of engine responses (`EngineStep`): each call to the engine's
parse primitive either yields one populated internal event, signals benign
exhaustion (parse fails, error state trivial), or reports a hard error with a
diagnostic message (parse fails, error state non-trivial).  A hard error is
sticky: the engine is left in the failed state, as the engine contract's
non-recoverable error model prescribes, so the failing step is not consumed.

Go byte slices (`[]byte`) are modelled by `ByteSlice`, which pairs the text
content with a numeric identity `bid` standing for the identity of the Go
slice's backing array.  Assigning a Go slice copies only the slice header and
keeps the backing array, so slice assignment preserves `bid`; converting with
`string(b)` copies the bytes into a fresh string, so the result carries no
backing-array identity at all.  A nil slice is `Option.none`.
-/

namespace YamlEvent

/-- Models a Go `[]byte` slice: `bid` is the identity of the backing array,
`data` the byte content (rendered as text). -/
structure ByteSlice where
  bid : Nat
  data : String
  deriving DecidableEq, Repr

/-- `string(b)` on a Go byte slice: copies the bytes, drops the backing
array (a Go string conversion always allocates fresh memory). -/
def goString (b : ByteSlice) : String := b.data

/-- The engine's internal event kinds (`yaml_event_type_t`); `yaml_NO_EVENT`
is the zero value, outside the ten kinds the adapter translates. -/
inductive yaml_event_type_t where
  | yaml_NO_EVENT
  | yaml_STREAM_START_EVENT
  | yaml_STREAM_END_EVENT
  | yaml_DOCUMENT_START_EVENT
  | yaml_DOCUMENT_END_EVENT
  | yaml_ALIAS_EVENT
  | yaml_SCALAR_EVENT
  | yaml_SEQUENCE_START_EVENT
  | yaml_SEQUENCE_END_EVENT
  | yaml_MAPPING_START_EVENT
  | yaml_MAPPING_END_EVENT
  deriving DecidableEq, Repr

/-- Engine position record (`yaml_mark_t`): index, line, column. -/
structure yaml_mark_t where
  index : Int := 0
  line : Int := 0
  column : Int := 0
  deriving DecidableEq, Repr

/-- Modelled from the spec: the engine's scalar style codes (the `any`
variant is the zero/default code, the named styles are the remaining
distinct codes of the engine's enumeration). -/
def yaml_ANY_SCALAR_STYLE : Int := 0

def yaml_PLAIN_SCALAR_STYLE : Int := 1

def yaml_SINGLE_QUOTED_SCALAR_STYLE : Int := 2

def yaml_DOUBLE_QUOTED_SCALAR_STYLE : Int := 3

def yaml_LITERAL_SCALAR_STYLE : Int := 4

def yaml_FOLDED_SCALAR_STYLE : Int := 5

/-- Modelled from the spec: the engine's sequence style codes. -/
def yaml_ANY_SEQUENCE_STYLE : Int := 0

def yaml_BLOCK_SEQUENCE_STYLE : Int := 1

def yaml_FLOW_SEQUENCE_STYLE : Int := 2

/-- Modelled from the spec: the engine's mapping style codes. -/
def yaml_ANY_MAPPING_STYLE : Int := 0

def yaml_BLOCK_MAPPING_STYLE : Int := 1

def yaml_FLOW_MAPPING_STYLE : Int := 2

/-- The engine's internal event record (`yaml_event_t`): kind tag, start/end
positions, value/anchor/tag byte slices, implicit flag, one raw style code,
and four independently optional comment byte slices. -/
structure yaml_event_t where
  typ : yaml_event_type_t := .yaml_NO_EVENT
  start_mark : yaml_mark_t := {}
  end_mark : yaml_mark_t := {}
  anchor : ByteSlice := ⟨0, ""⟩
  tag : ByteSlice := ⟨0, ""⟩
  value : ByteSlice := ⟨0, ""⟩
  implicit : Bool := false
  style : Int := 0
  head_comment : Option ByteSlice := none
  line_comment : Option ByteSlice := none
  foot_comment : Option ByteSlice := none
  tail_comment : Option ByteSlice := none
  deriving DecidableEq, Repr

/-- `yaml_event_t.scalar_style()`: reads the raw style code as a scalar style. -/
def yaml_event_t.scalar_style (e : yaml_event_t) : Int := e.style

/-- `yaml_event_t.sequence_style()`: reads the raw style code as a sequence style. -/
def yaml_event_t.sequence_style (e : yaml_event_t) : Int := e.style

/-- `yaml_event_t.mapping_style()`: reads the raw style code as a mapping style. -/
def yaml_event_t.mapping_style (e : yaml_event_t) : Int := e.style

/-- Modelled from the spec: `yaml_event_delete` releases the transient
internal event record, clearing it back to the zero record. -/
def yaml_event_delete (_e : yaml_event_t) : yaml_event_t := {}

/-- `EventType` of `events.go` (lines 11–23): the public event kinds;
`EventNone` is the zero value. -/
inductive EventType where
  | EventNone
  | EventStreamStart
  | EventStreamEnd
  | EventDocumentStart
  | EventDocumentEnd
  | EventAlias
  | EventScalar
  | EventSequenceStart
  | EventSequenceEnd
  | EventMappingStart
  | EventMappingEnd
  deriving DecidableEq, Repr

/-- `EventType.String()` of `events.go` (lines 25–50). -/
def EventType.toGoString : EventType → String
  | .EventStreamStart => "STREAM-START"
  | .EventStreamEnd => "STREAM-END"
  | .EventDocumentStart => "DOCUMENT-START"
  | .EventDocumentEnd => "DOCUMENT-END"
  | .EventAlias => "ALIAS"
  | .EventScalar => "SCALAR"
  | .EventSequenceStart => "SEQUENCE-START"
  | .EventSequenceEnd => "SEQUENCE-END"
  | .EventMappingStart => "MAPPING-START"
  | .EventMappingEnd => "MAPPING-END"
  | .EventNone => "NONE"

/-- `Mark` of `events.go` (lines 110–114). -/
structure Mark where
  Index : Int := 0
  Line : Int := 0
  Column : Int := 0
  deriving DecidableEq, Repr

/-- `Event` of `events.go` (lines 53–66).  The Go field `Type` is rendered
as `Type'` (`Type` is reserved in Lean); defaults are the Go zero values.
The comment fields are Go `[]byte` slices, hence `Option ByteSlice`. -/
structure Event where
  Type' : EventType := .EventNone
  Value : String := ""
  Anchor : String := ""
  Tag : String := ""
  Style : Int := 0
  Implicit : Bool := false
  StartMark : Mark := {}
  EndMark : Mark := {}
  HeadComment : Option ByteSlice := none
  LineComment : Option ByteSlice := none
  FootComment : Option ByteSlice := none
  TailComment : Option ByteSlice := none
  deriving DecidableEq, Repr

/-- `Event.StyleString()` of `events.go` (lines 69–107): resolves the raw
style code according to the event kind. -/
def Event.StyleString (e : Event) : String :=
  match e.Type' with
  | .EventScalar =>
      if e.Style = yaml_PLAIN_SCALAR_STYLE then "plain"
      else if e.Style = yaml_SINGLE_QUOTED_SCALAR_STYLE then "single-quoted"
      else if e.Style = yaml_DOUBLE_QUOTED_SCALAR_STYLE then "double-quoted"
      else if e.Style = yaml_LITERAL_SCALAR_STYLE then "literal"
      else if e.Style = yaml_FOLDED_SCALAR_STYLE then "folded"
      else "any"
  | .EventSequenceStart =>
      if e.Style = yaml_FLOW_SEQUENCE_STYLE then "flow"
      else if e.Style = yaml_BLOCK_SEQUENCE_STYLE then "block"
      else "any"
  | .EventMappingStart =>
      if e.Style = yaml_FLOW_MAPPING_STYLE then "flow"
      else if e.Style = yaml_BLOCK_MAPPING_STYLE then "block"
      else "any"
  | _ => ""

/-- Modelled from the spec: one response of the opaque engine's parse
primitive (`yaml_parser_parse`).  `parsed e` is a successful parse yielding
the internal event `e`; `exhausted` is the benign no-more-events signal
(parse fails, error state is the trivial `yaml_NO_ERROR`); `hardError msg`
is a failed parse with a non-trivial error state carrying the engine's
diagnostic message (`parser.problem`). -/
inductive EngineStep where
  | parsed (e : yaml_event_t)
  | exhausted
  | hardError (problem : String)
  deriving DecidableEq, Repr

/-- `Parser` of `events.go` (lines 117–120).  The owned engine instance
(Go field `parser : yaml_parser_t`) is modelled by the trace of responses
the engine will give to successive parse calls. -/
structure Parser where
  engine : List EngineStep
  done : Bool := false
  deriving DecidableEq, Repr

/-- The event-construction part of `Parser.Next` (`events.go` lines
147–202): the composite literal populating positions and the four comment
slots uniformly, followed by the kind switch.  Comment fields are Go slice
assignments (header copy, backing array shared); `Value`, `Anchor` and `Tag`
go through `string(...)` conversions (fresh copies). -/
def translateEvent (yamlEvent : yaml_event_t) : Event :=
  let event : Event :=
    { StartMark := { Index := yamlEvent.start_mark.index,
                     Line := yamlEvent.start_mark.line,
                     Column := yamlEvent.start_mark.column }
      EndMark := { Index := yamlEvent.end_mark.index,
                   Line := yamlEvent.end_mark.line,
                   Column := yamlEvent.end_mark.column }
      HeadComment := yamlEvent.head_comment
      LineComment := yamlEvent.line_comment
      FootComment := yamlEvent.foot_comment
      TailComment := yamlEvent.tail_comment }
  match yamlEvent.typ with
  | .yaml_STREAM_START_EVENT => { event with Type' := .EventStreamStart }
  | .yaml_STREAM_END_EVENT => { event with Type' := .EventStreamEnd }
  | .yaml_DOCUMENT_START_EVENT =>
      { event with Type' := .EventDocumentStart, Implicit := yamlEvent.implicit }
  | .yaml_DOCUMENT_END_EVENT =>
      { event with Type' := .EventDocumentEnd, Implicit := yamlEvent.implicit }
  | .yaml_ALIAS_EVENT =>
      { event with Type' := .EventAlias, Anchor := goString yamlEvent.anchor }
  | .yaml_SCALAR_EVENT =>
      { event with Type' := .EventScalar,
                   Value := goString yamlEvent.value,
                   Anchor := goString yamlEvent.anchor,
                   Tag := goString yamlEvent.tag,
                   Implicit := yamlEvent.implicit,
                   Style := yamlEvent.scalar_style }
  | .yaml_SEQUENCE_START_EVENT =>
      { event with Type' := .EventSequenceStart,
                   Anchor := goString yamlEvent.anchor,
                   Tag := goString yamlEvent.tag,
                   Implicit := yamlEvent.implicit,
                   Style := yamlEvent.sequence_style }
  | .yaml_SEQUENCE_END_EVENT => { event with Type' := .EventSequenceEnd }
  | .yaml_MAPPING_START_EVENT =>
      { event with Type' := .EventMappingStart,
                   Anchor := goString yamlEvent.anchor,
                   Tag := goString yamlEvent.tag,
                   Implicit := yamlEvent.implicit,
                   Style := yamlEvent.mapping_style }
  | .yaml_MAPPING_END_EVENT => { event with Type' := .EventMappingEnd }
  | .yaml_NO_EVENT => event

/-- `Parser.Next` of `events.go` (lines 133–206).  Returns the updated
parser state together with the Go pair `(*Event, error)` rendered as
`Option Event × Option String`.  A hard engine error does not consume the
engine step (the engine's error state is sticky) and does not set `done`;
benign exhaustion and a translated stream-end event set `done`.  An empty
trace behaves as benign exhaustion. -/
def Parser.Next (p : Parser) : Parser × (Option Event × Option String) :=
  if p.done then (p, (none, none))
  else
    match p.engine with
    | [] => ({ p with done := true }, (none, none))
    | .hardError problem :: _ => (p, (none, some ("parser error: " ++ problem)))
    | .exhausted :: _ => ({ p with done := true }, (none, none))
    | .parsed yamlEvent :: rest =>
        let event := translateEvent yamlEvent
        let done' := yamlEvent.typ = .yaml_STREAM_END_EVENT
        ({ p with engine := rest, done := done' }, (some event, none))

/-- The results of `n` successive `Next` calls starting from `p`, threading
the parser state. -/
def nextN : Nat → Parser → List (Option Event × Option String)
  | 0, _ => []
  | n + 1, p =>
      let r := p.Next
      r.2 :: nextN n r.1

/-- One rendered output line of the driver (`main.go` lines 33–82), kept
structured; `lineToString` gives the byte-exact text.  `startLine`/`endLine`
carry the values as printed (line already incremented by one). -/
inductive RLine where
  | eventLine (t : EventType)
  | startLine (line column : Int)
  | endLine (line column : Int)
  | headCommentLine (s : String)
  | lineCommentLine (s : String)
  | footCommentLine (s : String)
  | tailCommentLine (s : String)
  | valueLine (s : String)
  | styleLine (s : String)
  | tagLine (s : String)
  | anchorLine (s : String)
  | implicitLine (b : Bool)
  | blankLine
  deriving DecidableEq, Repr

/-- One comment block of `main.go` (lines 40–51): a labeled, quoted line
exactly when the field is non-nil and non-empty. -/
def commentSeg (mk : String → RLine) (c : Option ByteSlice) : List RLine :=
  match c with
  | some b => if b.data.length > 0 then [mk b.data] else []
  | none => []

/-- The per-event rendering block of `main.go` (lines 33–82): event kind,
positions (start line printed 1-based), the comment lines for the comment
fields that are non-nil and non-empty, the kind-specific extra block, and
the trailing blank line. -/
def renderEvent (event : Event) : List RLine :=
  [RLine.eventLine event.Type',
   RLine.startLine (event.StartMark.Line + 1) event.StartMark.Column,
   RLine.endLine (event.EndMark.Line + 1) event.EndMark.Column]
  ++ commentSeg RLine.headCommentLine event.HeadComment
  ++ commentSeg RLine.lineCommentLine event.LineComment
  ++ commentSeg RLine.footCommentLine event.FootComment
  ++ commentSeg RLine.tailCommentLine event.TailComment
  ++ (match event.Type' with
      | .EventScalar =>
          [RLine.valueLine event.Value]
          ++ (let style := event.StyleString
              if style ≠ "" ∧ style ≠ "plain" then [RLine.styleLine style] else [])
          ++ (if event.Tag ≠ "" then [RLine.tagLine event.Tag] else [])
          ++ (if event.Anchor ≠ "" then [RLine.anchorLine event.Anchor] else [])
          ++ [RLine.implicitLine event.Implicit]
      | .EventAlias => [RLine.anchorLine event.Anchor]
      | .EventSequenceStart =>
          (let style := event.StyleString
           if style ≠ "" ∧ style ≠ "block" then [RLine.styleLine style] else [])
          ++ (if event.Tag ≠ "" then [RLine.tagLine event.Tag] else [])
          ++ (if event.Anchor ≠ "" then [RLine.anchorLine event.Anchor] else [])
          ++ [RLine.implicitLine event.Implicit]
      | .EventMappingStart =>
          (let style := event.StyleString
           if style ≠ "" ∧ style ≠ "block" then [RLine.styleLine style] else [])
          ++ (if event.Tag ≠ "" then [RLine.tagLine event.Tag] else [])
          ++ (if event.Anchor ≠ "" then [RLine.anchorLine event.Anchor] else [])
          ++ [RLine.implicitLine event.Implicit]
      | .EventDocumentStart => [RLine.implicitLine event.Implicit]
      | .EventDocumentEnd => [RLine.implicitLine event.Implicit]
      | _ => [])
  ++ [RLine.blankLine]

/-- Go `%q` escaping for one character (the cases arising in text handled by
this tool; the double quote, backslash and common control characters). -/
def goEscapeChar (c : Char) : String :=
  if c = '"' then "\\\""
  else if c = '\\' then "\\\\"
  else if c = '\n' then "\\n"
  else if c = '\t' then "\\t"
  else if c = '\r' then "\\r"
  else String.singleton c

/-- Go `%q` on a string: double-quoted with escapes. -/
def goQuote (s : String) : String :=
  "\"" ++ String.join (s.toList.map goEscapeChar) ++ "\""

/-- The exact text of one rendered line (the `fmt.Printf` formats of
`main.go`, without the trailing newline). -/
def lineToString : RLine → String
  | .eventLine t => "- Event: " ++ t.toGoString
  | .startLine l c =>
      "  Start: \x7bLine: " ++ toString l ++ ", Column: " ++ toString c ++ "\x7d"
  | .endLine l c =>
      "  End: \x7bLine: " ++ toString l ++ ", Column: " ++ toString c ++ "\x7d"
  | .headCommentLine s => "  HeadComment: " ++ goQuote s
  | .lineCommentLine s => "  LineComment: " ++ goQuote s
  | .footCommentLine s => "  FootComment: " ++ goQuote s
  | .tailCommentLine s => "  TailComment: " ++ goQuote s
  | .valueLine s => "  Value: " ++ goQuote s
  | .styleLine s => "  Style: " ++ s
  | .tagLine s => "  Tag: " ++ s
  | .anchorLine s => "  Anchor: " ++ s
  | .implicitLine b => "  Implicit: " ++ (if b then "true" else "false")
  | .blankLine => ""

/-- The driver loop of `main.go` (lines 22–83), with explicit fuel for
termination: each productive iteration consumes one engine step, so
`p.engine.length + 1` fuel (as supplied by `mainRun`) is never exhausted.
Returns the rendered lines and, when the loop stopped on a `Next` error,
that error. -/
def driverLoopFuel : Nat → Parser → List RLine × Option String
  | 0, _ => ([], none)
  | fuel + 1, p =>
      match p.Next with
      | (_, (_, some err)) => ([], some err)
      | (_, (none, none)) => ([], none)
      | (p', (some event, none)) =>
          let r := driverLoopFuel fuel p'
          (renderEvent event ++ r.1, r.2)

/-- The process-level outcome of one run of the tool: rendered stdout lines,
the stderr diagnostic if any, the exit code, and how many times
`Parser.Close` was invoked on the adapter before the process exited. -/
structure DriverResult where
  output : List RLine
  errOutput : Option String
  exitCode : Nat
  closeCalls : Nat
  deriving DecidableEq, Repr

/-- `main` of `main.go` (lines 14–84).  `initOk` is whether
`yaml_parser_initialize` succeeds inside `NewParser`; `trace` is the engine
behaviour.  On initialization failure `main` calls `os.Exit(1)` before any
adapter exists (`closeCalls = 0`).  After a successful `NewParser`,
`parser.Close()` is only deferred: when the loop breaks normally, `main`
returns and the deferred call runs once; when `parser.Next` returns an
error, `main` calls `os.Exit(1)`, and per the Go specification `os.Exit`
terminates the process immediately WITHOUT running deferred functions, so
`Close` is never called on that path (`closeCalls = 0`). -/
def mainRun (initOk : Bool) (trace : List EngineStep) : DriverResult :=
  if ¬initOk then
    { output := [], errOutput := some "Error creating parser: failed to initialize YAML parser",
      exitCode := 1, closeCalls := 0 }
  else
    let p : Parser := { engine := trace }
    match driverLoopFuel (trace.length + 1) p with
    | (ls, some err) =>
        { output := ls, errOutput := some ("Parser error: " ++ err),
          exitCode := 1, closeCalls := 0 }
    | (ls, none) =>
        { output := ls, errOutput := none, exitCode := 0, closeCalls := 1 }

/-- The byte-exact stdout text of a run: each rendered line followed by a
newline. -/
def outputText (r : DriverResult) : String :=
  String.join (r.output.map (fun l => lineToString l ++ "\n"))

/-- Whether a rendered line is a Style line. -/
def isStyleLine : RLine → Bool
  | .styleLine _ => true
  | _ => false

/-- Whether a rendered line is a Tag line. -/
def isTagLine : RLine → Bool
  | .tagLine _ => true
  | _ => false

/-- Whether a rendered line is an Anchor line. -/
def isAnchorLine : RLine → Bool
  | .anchorLine _ => true
  | _ => false

/-- Whether a rendered line is an Implicit line. -/
def isImplicitLine : RLine → Bool
  | .implicitLine _ => true
  | _ => false

/-- Spec-side predicate (from the claim's words, §4.2 rendering contract):
per kind, the Style line appears exactly when the resolved style is neither
empty nor the kind's default ("plain" for scalars, "block" for collection
starts); Tag and Anchor lines exactly when the field is non-empty; the
Implicit line always for the five kinds that carry it; for an alias the
Anchor line always appears. -/
def specRenderSuppression (e : Event) : Bool :=
  match e.Type' with
  | .EventScalar =>
      ((renderEvent e).any isStyleLine
          == (e.StyleString != "" && e.StyleString != "plain"))
      && ((renderEvent e).any isTagLine == (e.Tag != ""))
      && ((renderEvent e).any isAnchorLine == (e.Anchor != ""))
      && (renderEvent e).any isImplicitLine
  | .EventSequenceStart | .EventMappingStart =>
      ((renderEvent e).any isStyleLine
          == (e.StyleString != "" && e.StyleString != "block"))
      && ((renderEvent e).any isTagLine == (e.Tag != ""))
      && ((renderEvent e).any isAnchorLine == (e.Anchor != ""))
      && (renderEvent e).any isImplicitLine
  | .EventDocumentStart | .EventDocumentEnd => (renderEvent e).any isImplicitLine
  | .EventAlias => (renderEvent e).any isAnchorLine
  | _ => true

/-- Spec-side predicate (from the claim's words, §4.1 table): the fields not
listed as populated for the event's kind are empty/default.  `Scalar` lists
all of value, anchor, tag, implicit and style, so nothing is constrained. -/
def specKindFieldConsistent (e : Event) : Bool :=
  match e.Type' with
  | .EventStreamStart | .EventStreamEnd | .EventSequenceEnd | .EventMappingEnd
  | .EventNone =>
      e.Value == "" && e.Anchor == "" && e.Tag == "" && e.Style == 0 && e.Implicit == false
  | .EventDocumentStart | .EventDocumentEnd =>
      e.Value == "" && e.Anchor == "" && e.Tag == "" && e.Style == 0
  | .EventAlias =>
      e.Value == "" && e.Tag == "" && e.Style == 0 && e.Implicit == false
  | .EventScalar => true
  | .EventSequenceStart | .EventMappingStart => e.Value == ""

/-- Spec-side predicate (from the claim's words, §3 Style Resolution): the
resolved style for kind `t` and raw code `style` lies in the kind's range,
with "any" for an unrecognized or unspecified code, and the empty string for
kinds where style is not applicable. -/
def specStyleResolution (t : EventType) (style : Int) (s : String) : Bool :=
  match t with
  | .EventScalar =>
      ["plain", "single-quoted", "double-quoted", "literal", "folded", "any"].contains s
      && (if style = yaml_PLAIN_SCALAR_STYLE ∨ style = yaml_SINGLE_QUOTED_SCALAR_STYLE
            ∨ style = yaml_DOUBLE_QUOTED_SCALAR_STYLE ∨ style = yaml_LITERAL_SCALAR_STYLE
            ∨ style = yaml_FOLDED_SCALAR_STYLE
          then true else s == "any")
  | .EventSequenceStart =>
      ["flow", "block", "any"].contains s
      && (if style = yaml_FLOW_SEQUENCE_STYLE ∨ style = yaml_BLOCK_SEQUENCE_STYLE
          then true else s == "any")
  | .EventMappingStart =>
      ["flow", "block", "any"].contains s
      && (if style = yaml_FLOW_MAPPING_STYLE ∨ style = yaml_BLOCK_MAPPING_STYLE
          then true else s == "any")
  | _ => s == ""

/-! Sample internal events used by witnesses and counterexamples. -/

/-- A sample stream-start internal event. -/
def evStreamStart : yaml_event_t := { typ := .yaml_STREAM_START_EVENT }

/-- A sample stream-end internal event. -/
def evStreamEnd : yaml_event_t :=
  { typ := .yaml_STREAM_END_EVENT, start_mark := ⟨6, 2, 0⟩, end_mark := ⟨6, 2, 0⟩ }

/-- A sample scalar internal event, with an anchored, tagged, single-quoted
value and a head comment whose backing array has identity 7. -/
def evScalarSample : yaml_event_t :=
  { typ := .yaml_SCALAR_EVENT,
    start_mark := ⟨0, 0, 0⟩, end_mark := ⟨3, 0, 3⟩,
    anchor := ⟨3, "a"⟩, tag := ⟨4, "!!str"⟩, value := ⟨5, "hi"⟩,
    implicit := true, style := 2,
    head_comment := some ⟨7, "# c"⟩ }

/-- A sample alias internal event whose anchor slice has backing array
identity 11. -/
def evAliasSample : yaml_event_t :=
  { typ := .yaml_ALIAS_EVENT, start_mark := ⟨4, 1, 0⟩, end_mark := ⟨6, 1, 2⟩,
    anchor := ⟨11, "a"⟩ }

/-- A sample sequence-start internal event with anchored, tagged flow
sequence. -/
def evSeqStartSample : yaml_event_t :=
  { typ := .yaml_SEQUENCE_START_EVENT, start_mark := ⟨0, 0, 0⟩, end_mark := ⟨1, 0, 1⟩,
    anchor := ⟨12, "s"⟩, tag := ⟨13, "!!seq"⟩, implicit := true, style := 2 }

/-- Basic evaluation lemma: a parser already marked done returns the absent
event with no error and leaves the state unchanged. -/
theorem Parser.Next_of_done (p : Parser) (h : p.done = true) :
    p.Next = (p, (none, none)) := by
  simp [Parser.Next, h]

/-- C1: once the parser is marked done, any number `n` of further `Next`
calls all return the absent event with no error; and the parser becomes
done exactly on the two completion signals: benign engine exhaustion, and
the translation of a stream-end event. -/
theorem C1_exhaustion_idempotence :
    (∀ (p : Parser) (n : Nat), p.done = true →
        nextN n p = List.replicate n (none, none)) ∧
    (∀ (p : Parser) (rest : List EngineStep), p.done = false →
        p.engine = EngineStep.exhausted :: rest →
        p.Next = ({ p with done := true }, (none, none))) ∧
    (∀ (p : Parser) (ev : yaml_event_t) (rest : List EngineStep), p.done = false →
        p.engine = EngineStep.parsed ev :: rest →
        ev.typ = yaml_event_type_t.yaml_STREAM_END_EVENT →
        (p.Next).1.done = true ∧ (p.Next).2 = (some (translateEvent ev), none)) := by
  refine ⟨?_, ?_, ?_⟩
  · intro p n h
    induction n generalizing p with
    | zero => simp [nextN]
    | succ n ih =>
        rw [nextN, Parser.Next_of_done p h]
        simp [ih p h, List.replicate_succ]
  · intro p rest h he
    simp [Parser.Next, h, he]
  · intro p ev rest h he htyp
    simp [Parser.Next, h, he, htyp]

/-- Witness for C1 at concrete inputs: three post-completion calls on a done
parser, benign exhaustion, and a stream-end translation. -/
theorem C1_witness :
    nextN 3 { engine := [EngineStep.exhausted], done := true } =
      List.replicate 3 (none, none) ∧
    Parser.Next { engine := [EngineStep.exhausted], done := false } =
      ({ engine := [EngineStep.exhausted], done := true }, (none, none)) ∧
    (Parser.Next { engine := [EngineStep.parsed evStreamEnd], done := false }).1.done = true :=
  ⟨C1_exhaustion_idempotence.1 _ 3 rfl,
   C1_exhaustion_idempotence.2.1 _ [] rfl rfl,
   (C1_exhaustion_idempotence.2.2 _ evStreamEnd [] rfl rfl rfl).1⟩

/-- C3: `Next` returns an error exactly when the parser is not done and the
engine's parse call fails with a non-trivial error state; the error text is
the engine diagnostic prefixed with "parser error: "; a failed parse with
trivial error state (benign exhaustion) instead marks the parser done and
returns the absent event with no error. -/
theorem C3_parse_error_iff :
    (∀ p : Parser, ((p.Next).2.2).isSome = true ↔
        (p.done = false ∧ ∃ msg rest, p.engine = EngineStep.hardError msg :: rest)) ∧
    (∀ (p : Parser) (msg : String) (rest : List EngineStep), p.done = false →
        p.engine = EngineStep.hardError msg :: rest →
        p.Next = (p, (none, some ("parser error: " ++ msg)))) ∧
    (∀ (p : Parser) (rest : List EngineStep), p.done = false →
        p.engine = EngineStep.exhausted :: rest →
        p.Next = ({ p with done := true }, (none, none))) := by
  refine ⟨?_, ?_, ?_⟩
  · intro p
    rcases p with ⟨eng, d⟩
    cases d
    · cases eng with
      | nil => simp [Parser.Next]
      | cons s rest =>
          cases s <;> simp [Parser.Next]
    · simp [Parser.Next]
  · intro p msg rest h he
    simp [Parser.Next, h, he]
  · intro p rest h he
    simp [Parser.Next, h, he]

/-- Witness for C3 at concrete inputs: a hard engine error with diagnostic
"bad token", and benign exhaustion. -/
theorem C3_witness :
    Parser.Next { engine := [EngineStep.hardError "bad token"], done := false } =
      ({ engine := [EngineStep.hardError "bad token"], done := false },
       (none, some "parser error: bad token")) ∧
    Parser.Next { engine := [EngineStep.exhausted], done := false } =
      ({ engine := [EngineStep.exhausted], done := true }, (none, none)) :=
  ⟨C3_parse_error_iff.2.1 _ "bad token" [] rfl rfl,
   C3_parse_error_iff.2.2 _ [] rfl rfl⟩

/-- C9: `Next` never returns a present event together with a present error;
every result is one of the three shapes event/no-error, absent/no-error,
absent/error. -/
theorem C9_result_exclusivity (p : Parser) :
    ((p.Next).2.1.isSome && (p.Next).2.2.isSome) = false := by
  rcases p with ⟨eng, d⟩
  cases d
  · cases eng with
    | nil => simp [Parser.Next]
    | cons s rest => cases s <;> simp [Parser.Next]
  · simp [Parser.Next]

/-- C5: every translated event satisfies kind-field consistency, and the
positions and the four comment slots are populated from the internal event
uniformly, for every internal kind. -/
theorem C5_kind_field_consistency (ev : yaml_event_t) :
    specKindFieldConsistent (translateEvent ev) = true ∧
    (translateEvent ev).StartMark =
      { Index := ev.start_mark.index, Line := ev.start_mark.line,
        Column := ev.start_mark.column } ∧
    (translateEvent ev).EndMark =
      { Index := ev.end_mark.index, Line := ev.end_mark.line,
        Column := ev.end_mark.column } ∧
    (translateEvent ev).HeadComment = ev.head_comment ∧
    (translateEvent ev).LineComment = ev.line_comment ∧
    (translateEvent ev).FootComment = ev.foot_comment ∧
    (translateEvent ev).TailComment = ev.tail_comment := by
  cases h : ev.typ <;>
    simp [translateEvent, specKindFieldConsistent, h]

/-- C6: style resolution is total and lands in the per-kind range — one of
the six scalar indicators for `Scalar` (with "any" when the code is not one
of the five named codes), one of flow/block/any for `SequenceStart` and
`MappingStart`, and the empty string for every other kind regardless of the
stored code. -/
theorem C6_style_resolution_total (e : Event) :
    specStyleResolution e.Type' e.Style e.StyleString = true := by
  rcases e with ⟨t, v, a, tg, st, i, sm, em, hc, lc, fc, tc⟩
  cases t <;>
    simp only [Event.StyleString, specStyleResolution,
      yaml_PLAIN_SCALAR_STYLE, yaml_SINGLE_QUOTED_SCALAR_STYLE,
      yaml_DOUBLE_QUOTED_SCALAR_STYLE, yaml_LITERAL_SCALAR_STYLE,
      yaml_FOLDED_SCALAR_STYLE, yaml_FLOW_SEQUENCE_STYLE,
      yaml_BLOCK_SEQUENCE_STYLE, yaml_FLOW_MAPPING_STYLE,
      yaml_BLOCK_MAPPING_STYLE] <;>
    (try decide) <;>
    (split_ifs <;> simp_all)

/-- C10: an internal event of an unrecognized kind (the engine's
`yaml_NO_EVENT`, outside the ten translated kinds) still succeeds: `Next`
returns no error and an event equal to the zero `Event` except for the
uniformly populated positions and comment slots — in particular its kind is
the `EventNone` sentinel. -/
theorem C10_unrecognized_kind (p : Parser) (ev : yaml_event_t)
    (rest : List EngineStep) (h : p.done = false)
    (he : p.engine = EngineStep.parsed ev :: rest)
    (htyp : ev.typ = yaml_event_type_t.yaml_NO_EVENT) :
    p.Next = ({ engine := rest, done := false },
      (some { StartMark := { Index := ev.start_mark.index, Line := ev.start_mark.line,
                             Column := ev.start_mark.column }
              EndMark := { Index := ev.end_mark.index, Line := ev.end_mark.line,
                           Column := ev.end_mark.column }
              HeadComment := ev.head_comment
              LineComment := ev.line_comment
              FootComment := ev.foot_comment
              TailComment := ev.tail_comment }, none)) := by
  rcases p with ⟨eng, d⟩
  subst h he
  simp [Parser.Next, translateEvent, htyp]

/-- Witness for C10: a `yaml_NO_EVENT` record with a tail comment, fed
through `Next`. -/
theorem C10_witness :
    Parser.Next { engine := [EngineStep.parsed
        { typ := .yaml_NO_EVENT, start_mark := ⟨1, 2, 3⟩, end_mark := ⟨4, 5, 6⟩,
          tail_comment := some ⟨9, "t"⟩ }], done := false } =
      ({ engine := [], done := false },
       (some { StartMark := { Index := 1, Line := 2, Column := 3 }
               EndMark := { Index := 4, Line := 5, Column := 6 }
               HeadComment := none, LineComment := none, FootComment := none
               TailComment := some ⟨9, "t"⟩ }, none)) :=
  C10_unrecognized_kind _
    { typ := .yaml_NO_EVENT, start_mark := ⟨1, 2, 3⟩, end_mark := ⟨4, 5, 6⟩,
      tail_comment := some ⟨9, "t"⟩ } [] rfl rfl rfl

/-- A comment block contributes no line of another flavor. -/
theorem any_commentSeg_eq_false (q : RLine → Bool) (mk : String → RLine)
    (h : ∀ s, q (mk s) = false) (c : Option ByteSlice) :
    (commentSeg mk c).any q = false := by
  cases c with
  | none => rfl
  | some b =>
      by_cases hb : b.data.length > 0 <;> simp [commentSeg, hb, h]

/-- C7: the rendering suppression rules hold for every event: Style lines
appear for a scalar exactly when the resolved style is neither empty nor
"plain", for sequence/mapping starts exactly when it is neither empty nor
"block"; Tag and Anchor lines exactly when the field is non-empty; the
Implicit line always for Scalar, SequenceStart, MappingStart, DocumentStart
and DocumentEnd; and an Alias always gets its Anchor line. -/
theorem C7_render_suppression (e : Event) : specRenderSuppression e = true := by
  obtain ⟨t, v, a, tg, st, i, sm, em, hc, lc, fc, tc⟩ := e
  cases t <;>
    simp [specRenderSuppression, renderEvent, Event.StyleString,
      any_commentSeg_eq_false, isStyleLine, isTagLine, isAnchorLine,
      isImplicitLine] <;>
    (try split_ifs) <;>
    simp_all [any_commentSeg_eq_false, isStyleLine, isTagLine, isAnchorLine,
      isImplicitLine, bne_iff_ne]

/-- C4 counterexample: the claim says no text field of a returned event
aliases engine-internal memory — that each of the four comment byte
sequences is an independent copy.  But the adapter assigns the Go comment
slices directly (`events.go` lines 158–161), copying only the slice header:
for the sample scalar whose engine-side head-comment buffer has backing
array identity 7, the returned event's `HeadComment` carries that same
backing array identity — it is the engine's buffer, not an independent
copy. -/
theorem C4_counterexample :
    ((Parser.Next ⟨[EngineStep.parsed evScalarSample], false⟩).2.1.bind
        Event.HeadComment) = some ⟨7, "# c"⟩ ∧
    evScalarSample.head_comment = some ⟨7, "# c"⟩ := by
  constructor <;> rfl

/-- C4 amended: for every translated event, `Value`, `Anchor` and `Tag`
are owned independently of the engine — each is either the Go `string(...)`
conversion of the corresponding engine slice (a copy carrying only the byte
content and no backing-array identity: scalar value/anchor/tag, alias
anchor, sequence/mapping-start anchor/tag) or the fresh empty string —
while the four comment fields are passed through as the engine event's own
slices (sharing their backing array). -/
theorem C4_text_field_ownership (ev : yaml_event_t) :
    (translateEvent ev).HeadComment = ev.head_comment ∧
    (translateEvent ev).LineComment = ev.line_comment ∧
    (translateEvent ev).FootComment = ev.foot_comment ∧
    (translateEvent ev).TailComment = ev.tail_comment ∧
    (ev.typ = yaml_event_type_t.yaml_SCALAR_EVENT →
      (translateEvent ev).Value = goString ev.value ∧
      (translateEvent ev).Anchor = goString ev.anchor ∧
      (translateEvent ev).Tag = goString ev.tag) ∧
    (ev.typ = yaml_event_type_t.yaml_ALIAS_EVENT →
      (translateEvent ev).Anchor = goString ev.anchor ∧
      (translateEvent ev).Value = "" ∧ (translateEvent ev).Tag = "") ∧
    (ev.typ = yaml_event_type_t.yaml_SEQUENCE_START_EVENT ∨
        ev.typ = yaml_event_type_t.yaml_MAPPING_START_EVENT →
      (translateEvent ev).Anchor = goString ev.anchor ∧
      (translateEvent ev).Tag = goString ev.tag ∧
      (translateEvent ev).Value = "") ∧
    (ev.typ ≠ yaml_event_type_t.yaml_SCALAR_EVENT →
      ev.typ ≠ yaml_event_type_t.yaml_ALIAS_EVENT →
      ev.typ ≠ yaml_event_type_t.yaml_SEQUENCE_START_EVENT →
      ev.typ ≠ yaml_event_type_t.yaml_MAPPING_START_EVENT →
      (translateEvent ev).Value = "" ∧ (translateEvent ev).Anchor = "" ∧
      (translateEvent ev).Tag = "") := by
  cases h : ev.typ <;> simp [translateEvent, h]

/-- Witness for C4's amended statement, discharging each kind hypothesis at
a concrete event: the sample scalar, alias, sequence-start and stream-start
events. -/
theorem C4_text_field_ownership_witness :
    (translateEvent evScalarSample).HeadComment = evScalarSample.head_comment ∧
    (translateEvent evScalarSample).Value = goString evScalarSample.value ∧
    (translateEvent evAliasSample).Anchor = goString evAliasSample.anchor ∧
    (translateEvent evSeqStartSample).Tag = goString evSeqStartSample.tag ∧
    (translateEvent evStreamStart).Anchor = "" :=
  ⟨(C4_text_field_ownership evScalarSample).1,
   ((C4_text_field_ownership evScalarSample).2.2.2.2.1 rfl).1,
   ((C4_text_field_ownership evAliasSample).2.2.2.2.2.1 rfl).1,
   ((C4_text_field_ownership evSeqStartSample).2.2.2.2.2.2.1 (Or.inl rfl)).2.1,
   ((C4_text_field_ownership evStreamStart).2.2.2.2.2.2.2 (by decide) (by decide)
      (by decide) (by decide)).2.1⟩

/-- C8: the driver is deterministic — for a fixed initialization outcome and
a fixed engine behaviour, two runs produce byte-identical rendered output. -/
theorem C8_determinism (i₁ i₂ : Bool) (t₁ t₂ : List EngineStep)
    (hi : i₁ = i₂) (ht : t₁ = t₂) :
    outputText (mainRun i₁ t₁) = outputText (mainRun i₂ t₂) := by
  subst hi ht
  rfl

/-- Witness for C8: two runs over the same two-event trace. -/
theorem C8_determinism_witness :
    outputText (mainRun true [EngineStep.parsed evScalarSample, EngineStep.exhausted]) =
      outputText (mainRun true [EngineStep.parsed evScalarSample, EngineStep.exhausted]) :=
  C8_determinism true true
    [EngineStep.parsed evScalarSample, EngineStep.exhausted]
    [EngineStep.parsed evScalarSample, EngineStep.exhausted] rfl rfl

/-- C2 evaluation: on a mid-stream parse error the driver calls
`os.Exit(1)`, which terminates the process without running the deferred
`parser.Close()` — zero `Close` calls on that path — while normal
exhaustion returns from `main` and runs the deferred `Close` exactly once.
This contradicts the claim that `Close` runs exactly once on every
termination path. -/
theorem C2_close_skipped_on_parse_error :
    (mainRun true [EngineStep.parsed evStreamStart,
        EngineStep.hardError "did not find expected node content"]).closeCalls = 0 ∧
    (mainRun true [EngineStep.parsed evStreamStart,
        EngineStep.hardError "did not find expected node content"]).exitCode = 1 ∧
    (mainRun true [EngineStep.parsed evStreamStart,
        EngineStep.parsed evStreamEnd]).closeCalls = 1 := by
  refine ⟨?_, ?_, ?_⟩ <;> rfl

end YamlEvent
